import Mathlib

/-!
Verification of the JetStream client core (publish acknowledger, ack codec,
consumer binder, pull driver) of this repository.

The Go source is shallowly embedded: machine integers (`int`, `int64`) become
`Int` with explicit two's-complement wrapping where overflow matters, `uint64`
fields become `Nat` values reduced mod `2^64`, fallible operations return
`Except`, and the network substrate is abstracted as explicit inputs (the
decoded response a request would yield) plus an explicit trace of emitted
network/local effects.  JSON decoding of a response body is abstracted as an
`Option`-valued input: `none` models a body that fails to unmarshal, `some r`
models the decoded structure.
-/

namespace NatsJS

/-- Errors surfaced by the embedded client code (one constructor per `Err*`
value or error construction in the source). `apiError d` models
`errors.New(resp.Error.Description)`. -/
inductive JsErr where
  | contextAndTimeout
  | noStreamResponse
  | invalidJSAck
  | apiError (description : String)
  | pullModeNotAllowed
  | directModeRequired
  | jetStreamNotEnabled
  | subjectMismatch
  | noMatchingStream
  | typeSubscription
  | msgNoReply
  | msgNotBound
  | notJSMessage
  | transport (n : Nat)
  | decodeFail
  | localSubFailed
  deriving DecidableEq, Repr

/-- Transport-level request outcomes: `noResponders` models `ErrNoResponders`,
`other n` any other transport error. -/
inductive TransportErr where
  | noResponders
  | other (n : Nat)
  deriving DecidableEq, Repr

/-- The outcome of one request/response round trip whose body decodes to `α`:
transport failure, decode failure (`.ok none`), or a decoded value. -/
abbrev ReqResult (α : Type) : Type := Except TransportErr (Option α)

/-- `ApiError` of the JSON API (code + description). -/
structure ApiError where
  code : Int
  description : String
  deriving DecidableEq, Repr

/-- `PubAck`: stream name, assigned sequence (uint64), duplicate flag. -/
structure PubAckData where
  stream : String
  sequence : Nat
  duplicate : Bool
  deriving DecidableEq, Repr

/-- Decoded `PubAckResponse`: embedded `ApiResponse.Error` and embedded
`*PubAck` (a nil pointer becomes `none`). -/
structure PubAckResponse where
  error : Option ApiError
  pubAck : Option PubAckData
  deriving DecidableEq, Repr

/-- The response-handling tail of `PublishMsg` (js.go lines 242-252): decode
failure yields `ErrInvalidJSAck`; a server error payload yields an error with
its description; a missing ack or empty stream name yields `ErrInvalidJSAck`;
otherwise the decoded `PubAck` is returned. -/
def processPubAck (decoded : Option PubAckResponse) : Except JsErr PubAckData :=
  match decoded with
  | none => .error .invalidJSAck
  | some pa =>
    match pa.error with
    | some ae => .error (.apiError ae.description)
    | none =>
      match pa.pubAck with
      | none => .error .invalidJSAck
      | some ack => if ack.stream = "" then .error .invalidJSAck else .ok ack

/-- `PublishMsg` from the point the request has been issued (js.go lines
236-252): the transport outcome (with `ErrNoResponders` translated to
`ErrNoStreamResponse`) followed by response processing. -/
def PublishMsg (reqResult : ReqResult PubAckResponse) : Except JsErr PubAckData :=
  match reqResult with
  | .error .noResponders => .error .noStreamResponse
  | .error (.other n) => .error (.transport n)
  | .ok decoded => processPubAck decoded

/-- Ack payload bytes (js.go lines 888-894). -/
def AckAck : String := "+ACK"

/-- `-NAK` payload bytes. -/
def AckNak : String := "-NAK"

/-- `+WPI` (work in progress) payload bytes. -/
def AckProgress : String := "+WPI"

/-- `+NXT` payload bytes. -/
def AckNext : String := "+NXT"

/-- `+TERM` payload bytes. -/
def AckTerm : String := "+TERM"

/-- The literal batch-1 next request published for NAK/TERM in pull mode
(js.go line 785). -/
def nextBatchOne : String := "+NXT \x7b\"batch\":1\x7d"

/-- JetStream context fields relevant to the embedded code: API prefix,
direct-only flag, and the API wait timeout (nanoseconds). -/
structure JsCtx where
  pre : String
  direct : Bool
  wait : Nat
  deriving DecidableEq, Repr

/-- `apiSubj` (js.go lines 155-163): prepend the prefix unless empty. -/
def apiSubj (pre suffix : String) : String :=
  if pre = "" then suffix else pre ++ suffix

/-- `CONSUMER.INFO.<stream>.<consumer>` per `JSApiConsumerInfoT`. -/
def consumerInfoSubj (stream consumer : String) : String :=
  "CONSUMER.INFO." ++ stream ++ "." ++ consumer

/-- `CONSUMER.CREATE.<stream>` per `JSApiConsumerCreateT`. -/
def consumerCreateSubj (stream : String) : String :=
  "CONSUMER.CREATE." ++ stream

/-- `CONSUMER.DURABLE.CREATE.<stream>.<durable>` per `JSApiDurableCreateT`. -/
def durableCreateSubj (stream durable : String) : String :=
  "CONSUMER.DURABLE.CREATE." ++ stream ++ "." ++ durable

/-- `CONSUMER.MSG.NEXT.<stream>.<consumer>` per `JSApiRequestNextT`. -/
def requestNextSubj (stream consumer : String) : String :=
  "CONSUMER.MSG.NEXT." ++ stream ++ "." ++ consumer

/-- `STREAM.NAMES` per `JSApiStreams`. -/
def streamNamesSubj : String := "STREAM.NAMES"

/-- Structured request payloads carried by emitted effects. -/
inductive Payload where
  | empty
  | bytes (s : String)
  | streamNamesReq (subject : String)
  | createConsumerReq (stream : String) (cfgDurable cfgDeliver cfgFilter : String)
      (cfgAckPolicy : Int) (cfgMaxAckPending : Int)
  | nextReq (batch : Int)
  deriving DecidableEq, Repr

/-- Network and local effects emitted by the embedded operations, in order. -/
inductive Eff where
  | request (subj : String) (payload : Payload) (timeout : Nat)
  | publish (subj : String) (payload : Payload)
  | publishRequest (subj reply : String) (payload : Payload)
  | localSubscribe (subj queue : String)
  | unsubscribe
  deriving DecidableEq, Repr

/-- Per-subscription JetStream binding state (`jsSub`): owning context,
resolved stream/consumer names, stored deliver subject, pull batch size. -/
structure JsSubInfo where
  js : JsCtx
  stream : String
  consumer : String
  deliver : String
  pull : Int
  deriving DecidableEq, Repr

/-- A local subscription: its transport subject, queue group, and the
JetStream binding (`nil` for plain subscriptions). -/
structure Subscription where
  subject : String
  queue : String
  jsi : Option JsSubInfo
  deriving DecidableEq, Repr

/-- A delivered message: subject, reply subject, owning subscription. -/
structure Msg where
  subject : String
  reply : String
  sub : Option Subscription
  deriving DecidableEq, Repr

/-- `checkReply` (js.go lines 755-773): an empty reply subject fails with
`ErrMsgNoReply` before the bound-ness checks; a missing subscription fails
with `ErrMsgNotBound`; a subscription without JetStream state fails with
`ErrNotJSMessage`.  Returns the subscription and its binding (the Go code
returns the `js` handle and the pull flag, both recoverable from these). -/
def checkReply (m : Msg) : Except JsErr (Subscription × JsSubInfo) :=
  if m.reply = "" then .error .msgNoReply
  else
    match m.sub with
    | none => .error .msgNotBound
    | some sub =>
      match sub.jsi with
      | none => .error .notJSMessage
      | some jsi => .ok (sub, jsi)

/-- `ackReply` (js.go lines 776-796).  In pull mode an ACK publishes the
`+NXT` next request, NAK/TERM publish the literal batch-1 next request, and
any other payload publishes nothing; a sync variant then issues a
request/reply wait.  In push mode the literal payload bytes are published
(or sent as a request when sync).  Transport sends are modeled as succeeding;
the returned list is the trace of emitted operations. -/
def ackReply (m : Msg) (ackType : String) (sync : Bool) : Except JsErr (List Eff) :=
  match checkReply m with
  | .error e => .error e
  | .ok (sub, jsi) =>
    if 0 < jsi.pull then
      let ops : List Eff :=
        if ackType = AckAck then
          [.publishRequest m.reply sub.subject (.bytes AckNext)]
        else if ackType = AckNak ∨ ackType = AckTerm then
          [.publishRequest m.reply sub.subject (.bytes nextBatchOne)]
        else []
      .ok (ops ++ if sync then [.request m.reply .empty jsi.js.wait] else [])
    else if sync then .ok [.request m.reply (.bytes ackType) jsi.js.wait]
    else .ok [.publish m.reply (.bytes ackType)]

/-- `Msg.Ack` (js.go line 801). -/
def Msg.Ack (m : Msg) : Except JsErr (List Eff) := ackReply m AckAck false

/-- `Msg.AckSync` (js.go line 806). -/
def Msg.AckSync (m : Msg) : Except JsErr (List Eff) := ackReply m AckAck true

/-- `Msg.Nak` (js.go line 811). -/
def Msg.Nak (m : Msg) : Except JsErr (List Eff) := ackReply m AckNak false

/-- `Msg.Term` (js.go line 816). -/
def Msg.Term (m : Msg) : Except JsErr (List Eff) := ackReply m AckTerm false

/-- `Msg.InProgress` (js.go line 821). -/
def Msg.InProgress (m : Msg) : Except JsErr (List Eff) := ackReply m AckProgress false

/-- Two's-complement wrap of an integer into the `int64` range. -/
def wrap64 (x : Int) : Int := (x + 2 ^ 63) % 2 ^ 64 - 2 ^ 63

/-- The digit-accumulation loop of `parseNum`: a non-digit rune yields -1,
otherwise `n = n*10 + digit` with `int64` wrapping. -/
def parseNumLoop : List Char → Int → Int
  | [], n => n
  | c :: rest, n =>
    if c.toNat < 48 ∨ 57 < c.toNat then -1
    else parseNumLoop rest (wrap64 (n * 10 + ((c.toNat : Int) - 48)))

/-- `parseNum` (js.go lines 868-886): empty input yields -1, otherwise the
digit loop starting from 0. -/
def parseNum (d : String) : Int :=
  if d.data.length = 0 then -1 else parseNumLoop d.data 0

/-- `uint64` cast of an `int64` value, as a natural number mod `2^64`. -/
def u64 (x : Int) : Nat := (x % 2 ^ 64).toNat

/-- The byte-wise tokenizer of `MetaData` (js.go lines 843-851): split the
subject at every `'.'`, keeping empty tokens and the trailing segment. -/
def tokenizeLoop : List Char → List Char → List String
  | [], cur => [String.mk cur.reverse]
  | c :: rest, cur =>
    if c = '.' then String.mk cur.reverse :: tokenizeLoop rest []
    else tokenizeLoop rest (c :: cur)

/-- Tokenize a reply subject on `'.'`. -/
def tokenize (s : String) : List String := tokenizeLoop s.data []

/-- `MsgMetaData`: uint64 counters plus the `time.Unix(0, n)` timestamp kept
as its nanosecond argument. -/
structure MsgMetaData where
  consumer : Nat
  stream : Nat
  delivered : Nat
  pending : Nat
  timestampNanos : Int
  deriving DecidableEq, Repr

/-- `MetaData` (js.go lines 834-865): after `checkReply`, tokenize the reply
subject; unless there are exactly 9 tokens starting `$JS . ACK`, fail with
`ErrNotJSMessage`; otherwise decode tokens 4-8 via `parseNum` (cast to uint64,
the timestamp kept signed). -/
def MetaData (m : Msg) : Except JsErr MsgMetaData :=
  match checkReply m with
  | .error e => .error e
  | .ok _ =>
    match tokenize m.reply with
    | [t0, t1, _, _, t4, t5, t6, t7, t8] =>
      if t0 = "$JS" ∧ t1 = "ACK" then
        .ok { delivered := u64 (parseNum t4)
              stream := u64 (parseNum t5)
              consumer := u64 (parseNum t6)
              timestampNanos := parseNum t7
              pending := u64 (parseNum t8) }
      else .error .notJSMessage
    | _ => .error .notJSMessage

/-- `ConsumerConfig` fields read or written by the embedded code (the other
fields are opaque tunables passed through unchanged). -/
structure ConsumerConfig where
  durable : String
  deliverSubject : String
  filterSubject : String
  ackPolicy : Int
  maxAckPending : Int
  deriving DecidableEq, Repr

/-- `AckNone` (= 0 in the `AckPolicy` iota). -/
def AckNone : Int := 0

/-- `AckExplicit` (= 2 in the `AckPolicy` iota). -/
def AckExplicit : Int := 2

/-- `ackPolicyNotSet` (= 99). -/
def ackPolicyNotSet : Int := 99

/-- `ConsumerInfo` fields read by the embedded code. -/
structure ConsumerInfoRec where
  stream : String
  name : String
  config : ConsumerConfig
  deriving DecidableEq, Repr

/-- Decoded `JSApiConsumerResponse`: embedded `ApiResponse.Error` and
embedded `*ConsumerInfo` (a nil pointer becomes `none`). -/
structure ConsumerResponse where
  error : Option ApiError
  info : Option ConsumerInfoRec
  deriving DecidableEq, Repr

/-- Decoded `JSApiStreamNamesResponse`. -/
structure StreamNamesResponse where
  error : Option ApiError
  streams : List String
  deriving DecidableEq, Repr

/-- `subOpts` after all functional options have been applied: attach
identifiers, pull batch size, manual-ack flag, and the consumer config the
options mutated (its `ackPolicy` starts at `ackPolicyNotSet`). -/
structure SubOpts where
  stream : String
  consumer : String
  pull : Int
  mack : Bool
  cfg : ConsumerConfig
  deriving DecidableEq, Repr

/-- The environment of one `subscribe` call: decoded outcomes of the remote
round trips it may perform, whether the local transport subscribe succeeds,
the inbox `NewInbox()` would generate, and the local pending-message limit
returned by `sub.PendingLimits()`. -/
structure SubEnv where
  consumerInfoResp : ReqResult ConsumerResponse
  streamNamesResp : ReqResult StreamNamesResponse
  createResp : ReqResult ConsumerResponse
  localSubOk : Bool
  inbox : String
  pendingMaxMsgs : Int

/-- Outcome of a `subscribe` call.  `crash` marks the nil-pointer
dereferences the Go code would perform when a decoded consumer response
carries neither an error nor a `ConsumerInfo`. -/
inductive SubOutcome where
  | ok (sub : Subscription)
  | err (e : JsErr)
  | crash
  deriving DecidableEq, Repr

/-- `shouldAttach` (js.go line 441): both attach identifiers present, or an
explicit push deliver subject (Go `&&` binds tighter than `||`). -/
def shouldAttach (o : SubOpts) : Bool :=
  (o.stream ≠ "" && o.consumer ≠ "") || o.cfg.deliverSubject ≠ ""

/-- `shouldCreate` (js.go line 442). -/
def shouldCreate (o : SubOpts) : Bool := !shouldAttach o

/-- `getConsumerInfo` (js.go lines 734-753): request `CONSUMER.INFO`,
translating no-responders to `ErrJetStreamNotEnabled`; a decoded error
payload becomes an error with its description; otherwise the (possibly nil)
`ConsumerInfo` is returned. -/
def getConsumerInfo (js : JsCtx) (stream consumer : String)
    (resp : ReqResult ConsumerResponse) :
    Except JsErr (Option ConsumerInfoRec) × List Eff :=
  let effs := [Eff.request (apiSubj js.pre (consumerInfoSubj stream consumer)) .empty js.wait]
  match resp with
  | .error .noResponders => (.error .jetStreamNotEnabled, effs)
  | .error (.other n) => (.error (.transport n), effs)
  | .ok none => (.error .decodeFail, effs)
  | .ok (some r) =>
    match r.error with
    | some ae => (.error (.apiError ae.description), effs)
    | none => (.ok r.info, effs)

/-- `lookupStreamBySubject` (js.go lines 570-592): request `STREAM.NAMES`
with the subject; no-responders becomes `ErrJetStreamNotEnabled`; a decoded
error payload or a stream list not of length one yields
`ErrNoMatchingStream`; otherwise the single stream name. -/
def lookupStreamBySubject (js : JsCtx) (subj : String)
    (resp : ReqResult StreamNamesResponse) : Except JsErr String × List Eff :=
  let effs := [Eff.request (apiSubj js.pre streamNamesSubj) (.streamNamesReq subj) js.wait]
  match resp with
  | .error .noResponders => (.error .jetStreamNotEnabled, effs)
  | .error (.other n) => (.error (.transport n), effs)
  | .ok none => (.error .decodeFail, effs)
  | .ok (some r) =>
    match r.error, r.streams with
    | none, [s] => (.ok s, effs)
    | _, _ => (.error .noMatchingStream, effs)

/-- Result of the path-resolution phase of `subscribe` (js.go lines 448-481):
the local deliver subject, the looked-up stream (create path), the consumer
config to send (create path, before the ack-policy defaults), and the
attached consumer's configured deliver subject (attach path). -/
structure Resolved where
  deliver : String
  stream : String
  cfg : ConsumerConfig
  ccfgDeliver : String
  deriving DecidableEq, Repr

/-- Three-way outcome of path resolution. -/
inductive PathRes where
  | ok (r : Resolved)
  | err (e : JsErr)
  | crash
  deriving DecidableEq, Repr

/-- The direct/attach/create branch of `subscribe` (js.go lines 448-481). -/
def resolvePath (js : JsCtx) (subj : String) (o : SubOpts) (env : SubEnv) :
    PathRes × List Eff :=
  if js.direct then
    let deliver := if o.cfg.deliverSubject ≠ "" then o.cfg.deliverSubject else env.inbox
    (.ok ⟨deliver, "", o.cfg, ""⟩, [])
  else if shouldAttach o then
    match getConsumerInfo js o.stream o.consumer env.consumerInfoResp with
    | (.error e, effs) => (.err e, effs)
    | (.ok none, effs) => (.crash, effs)
    | (.ok (some info), effs) =>
      let ccfg := info.config
      if ccfg.filterSubject ≠ "" ∧ subj ≠ ccfg.filterSubject then
        (.err .subjectMismatch, effs)
      else
        let deliver := if ccfg.deliverSubject ≠ "" then ccfg.deliverSubject else env.inbox
        (.ok ⟨deliver, "", o.cfg, ccfg.deliverSubject⟩, effs)
  else
    match lookupStreamBySubject js subj env.streamNamesResp with
    | (.error e, effs) => (.err e, effs)
    | (.ok stream, effs) =>
      let deliver := env.inbox
      let cfg := if ¬ 0 < o.pull then { o.cfg with deliverSubject := deliver } else o.cfg
      (.ok ⟨deliver, stream, { cfg with filterSubject := subj }, ""⟩, effs)

/-- `Poll` (js.go lines 717-732): fails with `ErrTypeSubscription` unless the
binding exists with an empty deliver subject and a nonzero pull batch;
otherwise publishes the `{batch}` next request to `CONSUMER.MSG.NEXT` with
the subscription's own subject as reply. -/
def Poll (sub : Subscription) : Except JsErr Eff :=
  match sub.jsi with
  | none => .error .typeSubscription
  | some jsi =>
    if jsi.deliver ≠ "" ∨ jsi.pull = 0 then .error .typeSubscription
    else
      .ok (.publishRequest (apiSubj jsi.js.pre (requestNextSubj jsi.stream jsi.consumer))
        sub.subject (.nextReq jsi.pull))

/-- The create-consumer request payload built from a config. -/
def createPayload (stream : String) (cfg : ConsumerConfig) : Payload :=
  .createConsumerReq stream cfg.durable cfg.deliverSubject cfg.filterSubject
    cfg.ackPolicy cfg.maxAckPending

/-- The final phase of `subscribe` (js.go lines 561-567): store the pull
batch and fire the first `Poll`, discarding its error. -/
def finishSub (o : SubOpts) (deliver queue : String) (jsi : JsSubInfo)
    (effs : List Eff) : SubOutcome × List Eff :=
  if 0 < o.pull then
    let jsi := { jsi with pull := o.pull }
    let sub : Subscription := ⟨deliver, queue, some jsi⟩
    match Poll sub with
    | .ok op => (.ok sub, effs ++ [op])
    | .error _ => (.ok sub, effs)
  else (.ok ⟨deliver, queue, some jsi⟩, effs)

/-- `subscribe` (js.go lines 420-568): option-derived checks, path
resolution, local transport subscribe, optional create-consumer round trip
with unsubscribe on failure, binding persistence, and the initial pull. -/
def subscribe (js : JsCtx) (subj queue : String) (hasCb : Bool) (o : SubOpts)
    (env : SubEnv) : SubOutcome × List Eff :=
  if hasCb ∧ 0 < o.pull then (.err .pullModeNotAllowed, [])
  else if js.direct ∧ shouldCreate o then (.err .directModeRequired, [])
  else
    match resolvePath js subj o env with
    | (.err e, effs) => (.err e, effs)
    | (.crash, effs) => (.crash, effs)
    | (.ok r, effs) =>
      if ¬ env.localSubOk then (.err .localSubFailed, effs)
      else
        let effs := effs ++ [.localSubscribe r.deliver queue]
        if shouldCreate o then
          let cfg := r.cfg
          let cfg := if cfg.ackPolicy = ackPolicyNotSet then { cfg with ackPolicy := AckExplicit } else cfg
          let cfg :=
            if cfg.maxAckPending = 0 ∧ cfg.ackPolicy ≠ AckNone then
              { cfg with maxAckPending := env.pendingMaxMsgs }
            else cfg
          let ccSubj :=
            if cfg.durable ≠ "" then durableCreateSubj r.stream cfg.durable
            else consumerCreateSubj r.stream
          let effs := effs ++ [.request (apiSubj js.pre ccSubj) (createPayload r.stream cfg) js.wait]
          match env.createResp with
          | .error .noResponders => (.err .jetStreamNotEnabled, effs ++ [.unsubscribe])
          | .error (.other n) => (.err (.transport n), effs ++ [.unsubscribe])
          | .ok none => (.err .decodeFail, effs ++ [.unsubscribe])
          | .ok (some resp) =>
            match resp.error with
            | some ae => (.err (.apiError ae.description), effs ++ [.unsubscribe])
            | none =>
              match resp.info with
              | none => (.crash, effs)
              | some i =>
                finishSub o r.deliver queue
                  ⟨js, i.stream, i.name, i.config.deliverSubject, 0⟩ effs
        else
          let jsiDeliver := if js.direct then o.cfg.deliverSubject else r.ccfgDeliver
          finishSub o r.deliver queue ⟨js, o.stream, o.consumer, jsiDeliver, 0⟩ effs

/-! ## Helper lemmas on `checkReply` -/

theorem checkReply_empty (m : Msg) (h : m.reply = "") :
    checkReply m = .error .msgNoReply := by
  simp [checkReply, h]

theorem checkReply_unbound (m : Msg) (h : m.reply ≠ "") (h2 : m.sub = none) :
    checkReply m = .error .msgNotBound := by
  simp [checkReply, h, h2]

theorem checkReply_ok (m : Msg) (sub : Subscription) (jsi : JsSubInfo)
    (hr : m.reply ≠ "") (hs : m.sub = some sub) (hj : sub.jsi = some jsi) :
    checkReply m = .ok (sub, jsi) := by
  simp [checkReply, hr, hs, hj]

theorem checkReply_notBound_iff (m : Msg) :
    checkReply m = .error .msgNotBound ↔ m.reply ≠ "" ∧ m.sub = none := by
  unfold checkReply
  by_cases h : m.reply = "" <;> simp [h]
  cases hs : m.sub with
  | none => simp
  | some sub =>
    cases hj : sub.jsi <;> simp [hj]

/-- C9: Every acknowledgment operation (`Ack`, `AckSync`, `Nak`, `Term`,
`InProgress`) and `MetaData` returns the missing-reply error on a message
with an empty reply subject, even when the message is also unbound; the
not-bound error is returned exactly for messages with a non-empty reply
subject and no subscription, because `checkReply` reads the reply field
before the unbound check. -/
theorem c9_reply_checked_before_binding (m : Msg) :
    (m.reply = "" →
      m.Ack = .error .msgNoReply ∧ m.AckSync = .error .msgNoReply ∧
      m.Nak = .error .msgNoReply ∧ m.Term = .error .msgNoReply ∧
      m.InProgress = .error .msgNoReply ∧ MetaData m = .error .msgNoReply) ∧
    (m.reply ≠ "" → m.sub = none →
      m.Ack = .error .msgNotBound ∧ m.AckSync = .error .msgNotBound ∧
      m.Nak = .error .msgNotBound ∧ m.Term = .error .msgNotBound ∧
      m.InProgress = .error .msgNotBound ∧ MetaData m = .error .msgNotBound) ∧
    (∀ ackType sync, ackReply m ackType sync = .error .msgNotBound →
      m.reply ≠ "" ∧ m.sub = none) ∧
    (MetaData m = .error .msgNotBound → m.reply ≠ "" ∧ m.sub = none) := by
  refine ⟨fun h => ?_, fun h h2 => ?_, fun ackType sync h => ?_, fun h => ?_⟩
  · simp [Msg.Ack, Msg.AckSync, Msg.Nak, Msg.Term, Msg.InProgress, ackReply,
      MetaData, checkReply_empty m h]
  · simp [Msg.Ack, Msg.AckSync, Msg.Nak, Msg.Term, Msg.InProgress, ackReply,
      MetaData, checkReply_unbound m h h2]
  · rw [← checkReply_notBound_iff]
    unfold ackReply at h
    cases hc : checkReply m with
    | error e => rw [hc] at h; cases h; rfl
    | ok p =>
      rw [hc] at h
      by_cases hp : 0 < p.2.pull <;> simp [hp] at h
      by_cases hsy : sync <;> simp [hsy] at h
  · rw [← checkReply_notBound_iff]
    unfold MetaData at h
    cases hc : checkReply m with
    | error e =>
      rw [hc] at h
      simp at h
      rw [← h]
    | ok p =>
      rw [hc] at h
      simp only [] at h
      exfalso
      revert h
      split
      · split <;> intro h <;> simp at h
      · intro h; simp at h

/-- Witness for C9 at a concrete unbound message with an empty reply. -/
theorem c9_reply_checked_before_binding_witness :
    (Msg.mk "subj" "" none).Ack = .error .msgNoReply ∧
    (Msg.mk "subj" "r" none).Ack = .error .msgNotBound :=
  ⟨((c9_reply_checked_before_binding (Msg.mk "subj" "" none)).1 rfl).1,
   ((c9_reply_checked_before_binding (Msg.mk "subj" "r" none)).2.1
      (by decide) rfl).1⟩

/-- C10: On a pull-mode JetStream message with a reply subject, `InProgress`
(the `+WPI` signal) publishes nothing and returns success: the pull branch of
`ackReply` handles only the ACK, NAK and TERM payloads, so the in-progress
signal is silently dropped. -/
theorem c10_pull_inprogress_dropped (m : Msg) (sub : Subscription)
    (jsi : JsSubInfo) (hr : m.reply ≠ "") (hs : m.sub = some sub)
    (hj : sub.jsi = some jsi) (hp : 0 < jsi.pull) :
    m.InProgress = .ok [] := by
  simp [Msg.InProgress, ackReply, checkReply_ok m sub jsi hr hs hj, hp,
    AckProgress, AckAck, AckNak, AckTerm]

/-- Witness for C10 at a concrete pull-mode message. -/
theorem c10_pull_inprogress_dropped_witness :
    (Msg.mk "subj" "$JS.ACK.S.C.1.2.3.4.5"
      (some ⟨"INBOX.1", "", some ⟨⟨"$JS.API.", false, 5⟩, "S", "C", "", 10⟩⟩)).InProgress
      = .ok [] :=
  c10_pull_inprogress_dropped _ ⟨"INBOX.1", "", some ⟨⟨"$JS.API.", false, 5⟩, "S", "C", "", 10⟩⟩
    ⟨⟨"$JS.API.", false, 5⟩, "S", "C", "", 10⟩ (by decide) rfl rfl (by decide)

/-- C6: On a pull-mode message, ACK publishes the `+NXT` next-message request
(not the `+ACK` bytes) to the reply subject, NAK and TERM publish the literal
batch-1 next request (not their signal bytes); on a push-mode message the
literal signal bytes are published; the synchronous variant additionally
performs a request/reply wait bounded by the context wait timeout. -/
theorem c6_ack_encoding (m : Msg) (sub : Subscription) (jsi : JsSubInfo)
    (hr : m.reply ≠ "") (hs : m.sub = some sub) (hj : sub.jsi = some jsi) :
    (0 < jsi.pull →
      m.Ack = .ok [.publishRequest m.reply sub.subject (.bytes AckNext)] ∧
      AckNext ≠ AckAck ∧
      m.Nak = .ok [.publishRequest m.reply sub.subject (.bytes nextBatchOne)] ∧
      m.Term = .ok [.publishRequest m.reply sub.subject (.bytes nextBatchOne)] ∧
      nextBatchOne ≠ AckNak ∧ nextBatchOne ≠ AckTerm ∧
      m.AckSync = .ok [.publishRequest m.reply sub.subject (.bytes AckNext),
        .request m.reply .empty jsi.js.wait]) ∧
    (¬ 0 < jsi.pull →
      (∀ ackType, ackReply m ackType false = .ok [.publish m.reply (.bytes ackType)]) ∧
      (∀ ackType, ackReply m ackType true =
        .ok [.request m.reply (.bytes ackType) jsi.js.wait])) := by
  have hc := checkReply_ok m sub jsi hr hs hj
  refine ⟨fun hp => ?_, fun hp => ⟨fun ackType => ?_, fun ackType => ?_⟩⟩
  · refine ⟨?_, by decide, ?_, ?_, by decide, by decide, ?_⟩ <;>
      simp [Msg.Ack, Msg.Nak, Msg.Term, Msg.AckSync, ackReply, hc, hp,
        AckAck, AckNak, AckTerm, AckNext]
  · simp [ackReply, hc, hp]
  · simp [ackReply, hc, hp]

/-- Witness for C6 at concrete pull- and push-mode messages. -/
theorem c6_ack_encoding_witness :
    (Msg.mk "s" "$JS.ACK.S.C.1.2.3.4.5"
        (some ⟨"INBOX.1", "", some ⟨⟨"$JS.API.", false, 5⟩, "S", "C", "", 10⟩⟩)).Nak
      = .ok [.publishRequest "$JS.ACK.S.C.1.2.3.4.5" "INBOX.1" (.bytes nextBatchOne)] ∧
    (Msg.mk "s" "$JS.ACK.S.C.1.2.3.4.5"
        (some ⟨"push.subj", "", some ⟨⟨"$JS.API.", false, 5⟩, "S", "C", "push.subj", 0⟩⟩)).Ack
      = .ok [.publish "$JS.ACK.S.C.1.2.3.4.5" (.bytes AckAck)] :=
  ⟨((c6_ack_encoding _ ⟨"INBOX.1", "", some ⟨⟨"$JS.API.", false, 5⟩, "S", "C", "", 10⟩⟩
        ⟨⟨"$JS.API.", false, 5⟩, "S", "C", "", 10⟩ (by decide) rfl rfl).1
      (by decide)).2.2.1,
   ((c6_ack_encoding _ ⟨"push.subj", "", some ⟨⟨"$JS.API.", false, 5⟩, "S", "C", "push.subj", 0⟩⟩
        ⟨⟨"$JS.API.", false, 5⟩, "S", "C", "push.subj", 0⟩ (by decide) rfl rfl).2
      (by decide)).1 AckAck⟩

/-! ## parseNum and MetaData lemmas (C2) -/

/-- Decimal value of a digit string continued from accumulator `a`
(spec-side helper for stating what `parseNum` computes). -/
def decimalValueFrom (a : Nat) (cs : List Char) : Nat :=
  cs.foldl (fun n c => n * 10 + (c.toNat - 48)) a

/-- Decimal value of a digit string. -/
def decimalValue (cs : List Char) : Nat := decimalValueFrom 0 cs

theorem decimalValueFrom_ge (cs : List Char) : ∀ a : Nat, a ≤ decimalValueFrom a cs := by
  induction cs with
  | nil => intro a; exact le_refl a
  | cons c rest ih =>
    intro a
    calc a ≤ a * 10 + (c.toNat - 48) := by omega
    _ ≤ decimalValueFrom (a * 10 + (c.toNat - 48)) rest := ih _

theorem wrap64_eq_of_range (x : Int) (h0 : 0 ≤ x) (h1 : x < 2 ^ 63) : wrap64 x = x := by
  have e63 : (2 : Int) ^ 63 = 9223372036854775808 := by norm_num
  have e64 : (2 : Int) ^ 64 = 18446744073709551616 := by norm_num
  unfold wrap64
  rw [e63] at h1
  rw [e63, e64, Int.emod_eq_of_lt (by omega) (by omega)]
  omega

theorem parseNumLoop_digits (cs : List Char) :
    ∀ a : Nat, (∀ c ∈ cs, 48 ≤ c.toNat ∧ c.toNat ≤ 57) →
      decimalValueFrom a cs < 2 ^ 63 →
      parseNumLoop cs (a : Int) = (decimalValueFrom a cs : Int) := by
  induction cs with
  | nil => intro a _ _; rfl
  | cons c rest ih =>
    intro a hd hlt
    have hc := hd c (by simp)
    have hstep : decimalValueFrom a (c :: rest)
        = decimalValueFrom (a * 10 + (c.toNat - 48)) rest := rfl
    have hmid : a * 10 + (c.toNat - 48) < 2 ^ 63 :=
      lt_of_le_of_lt (decimalValueFrom_ge rest _) (hstep ▸ hlt)
    unfold parseNumLoop
    rw [if_neg (by omega)]
    have harg : (a : Int) * 10 + ((c.toNat : Int) - 48)
        = ((a * 10 + (c.toNat - 48) : Nat) : Int) := by
      have h48 := hc.1
      push_cast [Nat.cast_sub h48]
      ring
    rw [harg, wrap64_eq_of_range _ (by positivity) (by exact_mod_cast hmid),
      ih _ (fun d hdm => hd d (by simp [hdm])) (hstep ▸ hlt), hstep]

theorem parseNumLoop_bad (cs : List Char) :
    ∀ n : Int, (∃ c ∈ cs, c.toNat < 48 ∨ 57 < c.toNat) → parseNumLoop cs n = -1 := by
  induction cs with
  | nil => rintro n ⟨c, hc, _⟩; cases hc
  | cons c rest ih =>
    rintro n ⟨d, hd, hbad⟩
    unfold parseNumLoop
    by_cases h : c.toNat < 48 ∨ 57 < c.toNat
    · rw [if_pos h]
    · rw [if_neg h]
      apply ih
      rcases List.mem_cons.mp hd with rfl | hmem
      · exact absurd hbad h
      · exact ⟨d, hmem, hbad⟩

theorem string_data_ne_nil (t : String) (h : t ≠ "") : t.data.length ≠ 0 := by
  cases t with
  | mk l =>
    cases l with
    | nil => exact absurd (by decide) h
    | cons c rest => simp

/-- `MetaData` after a successful `checkReply` is the token match on the
reply subject. -/
theorem MetaData_eq (m : Msg) (sub : Subscription) (jsi : JsSubInfo)
    (hr : m.reply ≠ "") (hs : m.sub = some sub) (hj : sub.jsi = some jsi) :
    MetaData m =
      (match tokenize m.reply with
       | [t0, t1, _, _, t4, t5, t6, t7, t8] =>
          if t0 = "$JS" ∧ t1 = "ACK" then
            .ok ⟨u64 (parseNum t6), u64 (parseNum t5), u64 (parseNum t4),
                 u64 (parseNum t8), parseNum t7⟩
          else .error .notJSMessage
       | _ => .error .notJSMessage) := by
  unfold MetaData
  rw [checkReply_ok m sub jsi hr hs hj]

/-- C2: For a message bound to a JetStream subscription with a reply subject,
`MetaData` tokenizes the reply subject on `'.'` and fails with the
not-a-JetStream-message error unless there are exactly 9 tokens whose first
two are `$JS` and `ACK`; tokens 4-8 then decode via `parseNum` into the
delivered count, stream sequence, consumer sequence, nanosecond timestamp,
and pending count, where an all-digit token decodes to its numeric value and
an empty or non-digit token decodes to the sentinel -1 instead of erroring. -/
theorem c2_metadata_decoding :
    (∀ (m : Msg) (sub : Subscription) (jsi : JsSubInfo),
      m.reply ≠ "" → m.sub = some sub → sub.jsi = some jsi →
      (∀ meta, MetaData m = .ok meta ↔
        ∃ t2 t3 t4 t5 t6 t7 t8,
          tokenize m.reply = ["$JS", "ACK", t2, t3, t4, t5, t6, t7, t8] ∧
          meta = ⟨u64 (parseNum t6), u64 (parseNum t5), u64 (parseNum t4),
                  u64 (parseNum t8), parseNum t7⟩) ∧
      ((¬ ∃ t2 t3 t4 t5 t6 t7 t8,
          tokenize m.reply = ["$JS", "ACK", t2, t3, t4, t5, t6, t7, t8]) →
        MetaData m = .error .notJSMessage)) ∧
    (∀ t : String, (t = "" ∨ ∃ c ∈ t.data, c.toNat < 48 ∨ 57 < c.toNat) →
      parseNum t = -1) ∧
    (∀ t : String, t ≠ "" → (∀ c ∈ t.data, 48 ≤ c.toNat ∧ c.toNat ≤ 57) →
      decimalValue t.data < 2 ^ 63 → parseNum t = (decimalValue t.data : Int)) := by
  refine ⟨fun m sub jsi hr hs hj => ⟨fun meta => ⟨fun h => ?_, fun h => ?_⟩, fun hne => ?_⟩,
    fun t ht => ?_, fun t ht hd hlt => ?_⟩
  · rw [MetaData_eq m sub jsi hr hs hj] at h
    revert h
    split
    · rename_i t0 t1 t2 t3 t4 t5 t6 t7 t8 heq
      intro h
      by_cases hm : t0 = "$JS" ∧ t1 = "ACK"
      · rw [if_pos hm] at h
        injection h with h2
        exact ⟨t2, t3, t4, t5, t6, t7, t8, by rw [heq, hm.1, hm.2], h2.symm⟩
      · rw [if_neg hm] at h; cases h
    · intro h; cases h
  · obtain ⟨t2, t3, t4, t5, t6, t7, t8, heq, hmeta⟩ := h
    rw [MetaData_eq m sub jsi hr hs hj, heq, hmeta]
    simp
  · rw [MetaData_eq m sub jsi hr hs hj]
    split
    · rename_i t0 t1 t2 t3 t4 t5 t6 t7 t8 heq
      by_cases hm : t0 = "$JS" ∧ t1 = "ACK"
      · exact absurd ⟨t2, t3, t4, t5, t6, t7, t8, by rw [heq, hm.1, hm.2]⟩ hne
      · rw [if_neg hm]
    · rfl
  · unfold parseNum
    rcases ht with rfl | hbad
    · rw [if_pos (by decide)]
    · by_cases hl : t.data.length = 0
      · rw [if_pos hl]
      · rw [if_neg hl]
        exact parseNumLoop_bad t.data 0 hbad
  · unfold parseNum
    rw [if_neg (string_data_ne_nil t ht)]
    have := parseNumLoop_digits t.data 0 hd (by exact hlt)
    simpa using this

/-- A concrete pull-mode JetStream message used by witnesses. -/
def msgC2 : Msg :=
  ⟨"orders", "$JS.ACK.MYSTR.dur.1.22.333.44.5",
   some ⟨"INBOX.w", "", some ⟨⟨"$JS.API.", false, 5⟩, "MYSTR", "dur", "", 10⟩⟩⟩

/-- Witness for C2: the sample reply subject decodes to its literal counters,
and `parseNum` maps a non-digit token to -1 and a digit token to its value. -/
theorem c2_metadata_decoding_witness :
    MetaData msgC2 = .ok ⟨333, 22, 1, 5, 44⟩ ∧
    parseNum "4x" = -1 ∧ parseNum "22" = (22 : Int) :=
  ⟨((c2_metadata_decoding.1 msgC2 ⟨"INBOX.w", "", some ⟨⟨"$JS.API.", false, 5⟩, "MYSTR", "dur", "", 10⟩⟩
        ⟨⟨"$JS.API.", false, 5⟩, "MYSTR", "dur", "", 10⟩ (by decide) rfl rfl).1 _).mpr
      ⟨"MYSTR", "dur", "1", "22", "333", "44", "5", by decide, by decide⟩,
   c2_metadata_decoding.2.1 "4x" (Or.inr ⟨'x', by decide, by decide⟩),
   by
    have := c2_metadata_decoding.2.2 "22" (by decide) (by decide) (by decide)
    simpa using this⟩

/-! ## Effect-trace lemmas for `subscribe` -/

theorem resolvePath_attach_effs (js : JsCtx) (subj : String) (o : SubOpts)
    (env : SubEnv) (hd : js.direct = false) (ha : shouldAttach o = true) :
    (resolvePath js subj o env).2 =
      [.request (apiSubj js.pre (consumerInfoSubj o.stream o.consumer)) .empty js.wait] := by
  unfold resolvePath getConsumerInfo
  rcases hci : env.consumerInfoResp with (_ | n) | (_ | r)
  · simp [hd, ha]
  · simp [hd, ha]
  · simp [hd, ha]
  · rcases hre : r.error with _ | ae
    · rcases hinfo : r.info with _ | i
      · simp [hd, ha, hre, hinfo]
      · simp only [hd, ha, hre, hinfo]
        simp
        split <;> simp
    · simp [hd, ha, hre]

theorem resolvePath_create_effs (js : JsCtx) (subj : String) (o : SubOpts)
    (env : SubEnv) (hd : js.direct = false) (hc : shouldCreate o = true) :
    (resolvePath js subj o env).2 =
      [.request (apiSubj js.pre streamNamesSubj) (.streamNamesReq subj) js.wait] := by
  have ha : shouldAttach o = false := by
    cases h : shouldAttach o
    · rfl
    · rw [shouldCreate, h] at hc; cases hc
  unfold resolvePath lookupStreamBySubject
  rcases hsn : env.streamNamesResp with (_ | n) | (_ | r)
  · simp [hd, ha]
  · simp [hd, ha]
  · simp [hd, ha]
  · rcases hre : r.error with _ | ae
    · rcases hstr : r.streams with _ | ⟨s, _ | _⟩ <;> simp [hd, ha, hre, hstr]
    · simp [hd, ha, hre]

theorem finishSub_effs_extend (o : SubOpts) (deliver queue : String)
    (jsi : JsSubInfo) (effs : List Eff) :
    ∃ rest, (finishSub o deliver queue jsi effs).2 = effs ++ rest := by
  unfold finishSub
  by_cases hp : 0 < o.pull
  · rw [if_pos hp]
    rcases hpoll : Poll ⟨deliver, queue, some { jsi with pull := o.pull }⟩ with e | op
    · exact ⟨[], by simp [hpoll]⟩
    · exact ⟨[op], by simp [hpoll]⟩
  · rw [if_neg hp]
    exact ⟨[], by simp⟩

theorem finishSub_head (o : SubOpts) (deliver queue : String) (jsi : JsSubInfo)
    (e : Eff) (rest : List Eff) :
    (finishSub o deliver queue jsi (e :: rest)).2.head? = some e := by
  obtain ⟨r0, h0⟩ := finishSub_effs_extend o deliver queue jsi (e :: rest)
  rw [h0]
  rfl

theorem subscribe_head_of_resolve (js : JsCtx) (subj queue : String)
    (hasCb : Bool) (o : SubOpts) (env : SubEnv)
    (hcb : ¬(hasCb = true ∧ 0 < o.pull))
    (hd : ¬(js.direct = true ∧ shouldCreate o = true))
    (e : Eff) (rest : List Eff)
    (hre : (resolvePath js subj o env).2 = e :: rest) :
    (subscribe js subj queue hasCb o env).2.head? = some e := by
  unfold subscribe
  rw [if_neg hcb, if_neg hd]
  rcases hr : resolvePath js subj o env with ⟨res, effs⟩
  rw [hr] at hre
  simp only at hre
  subst hre
  cases res with
  | err e2 => simp
  | crash => simp
  | ok r =>
    by_cases hl : env.localSubOk
    · simp only [hl, not_true_eq_false, if_false]
      by_cases hsc : shouldCreate o = true
      · simp only [hsc, if_true]
        rcases hcr : env.createResp with (_ | n) | (_ | resp)
        · simp [hcr]
        · simp [hcr]
        · simp [hcr]
        · rcases hrre : resp.error with _ | ae
          · rcases hinfo : resp.info with _ | i
            · simp [hcr, hrre, hinfo]
            · simp only [hcr, hrre, hinfo]
              exact finishSub_head o r.deliver queue _ e _
          · simp [hcr, hrre]
      · simp only [hsc, if_false]
        exact finishSub_head o r.deliver queue _ e _
    · simp [hl]

/-- C3: The binder resolves to the attach path exactly when the options
supply both a non-empty stream and consumer name, or an explicit push
deliver subject; attach and create are mutually exclusive and exhaustive,
and the resolution is decided from the options alone before any remote
request: the first emitted effect on the attach path is the consumer-info
request and on the create path the stream-names request. -/
theorem c3_attach_vs_create (o : SubOpts) :
    (shouldAttach o = true ↔
      ((o.stream ≠ "" ∧ o.consumer ≠ "") ∨ o.cfg.deliverSubject ≠ "")) ∧
    ¬(shouldAttach o = true ∧ shouldCreate o = true) ∧
    (shouldAttach o = true ∨ shouldCreate o = true) ∧
    (∀ (js : JsCtx) (subj queue : String) (hasCb : Bool) (env : SubEnv),
      ¬(hasCb = true ∧ 0 < o.pull) → js.direct = false →
      (shouldAttach o = true →
        (subscribe js subj queue hasCb o env).2.head? =
          some (.request (apiSubj js.pre (consumerInfoSubj o.stream o.consumer))
            .empty js.wait)) ∧
      (shouldCreate o = true →
        (subscribe js subj queue hasCb o env).2.head? =
          some (.request (apiSubj js.pre streamNamesSubj)
            (.streamNamesReq subj) js.wait))) := by
  refine ⟨by simp [shouldAttach], ?_, ?_, fun js subj queue hasCb env hcb hdir => ⟨?_, ?_⟩⟩
  · cases h : shouldAttach o <;> simp [shouldCreate, h]
  · cases h : shouldAttach o <;> simp [shouldCreate, h]
  · intro ha
    exact subscribe_head_of_resolve js subj queue hasCb o env hcb
      (by simp [hdir]) _ []
      (resolvePath_attach_effs js subj o env hdir ha)
  · intro hc
    exact subscribe_head_of_resolve js subj queue hasCb o env hcb
      (by simp [hdir]) _ []
      (resolvePath_create_effs js subj o env hdir hc)

/-- A consumer config with no options applied (`ackPolicy` starts at the
not-set sentinel). -/
def emptyCfg : ConsumerConfig := ⟨"", "", "", ackPolicyNotSet, 0⟩

/-- An environment whose every response fails to decode. -/
def decodeFailEnv : SubEnv :=
  ⟨.ok none, .ok none, .ok none, true, "INBOX.g", 65536⟩

/-- Witness for C3 at concrete attach and create option records. -/
theorem c3_attach_vs_create_witness :
    shouldAttach ⟨"S", "C", 0, false, emptyCfg⟩ = true ∧
    (subscribe ⟨"$JS.API.", false, 5⟩ "orders" "" false ⟨"S", "C", 0, false, emptyCfg⟩
        decodeFailEnv).2.head? =
      some (.request (apiSubj "$JS.API." (consumerInfoSubj "S" "C")) .empty 5) ∧
    shouldCreate ⟨"", "", 0, false, emptyCfg⟩ = true ∧
    (subscribe ⟨"$JS.API.", false, 5⟩ "orders" "" false ⟨"", "", 0, false, emptyCfg⟩
        decodeFailEnv).2.head? =
      some (.request (apiSubj "$JS.API." streamNamesSubj) (.streamNamesReq "orders") 5) :=
  ⟨by decide,
   ((c3_attach_vs_create ⟨"S", "C", 0, false, emptyCfg⟩).2.2.2
      ⟨"$JS.API.", false, 5⟩ "orders" "" false decodeFailEnv (by decide) rfl).1 (by decide),
   by decide,
   ((c3_attach_vs_create ⟨"", "", 0, false, emptyCfg⟩).2.2.2
      ⟨"$JS.API.", false, 5⟩ "orders" "" false decodeFailEnv (by decide) rfl).2 (by decide)⟩

/-! ## C1: publish acknowledgment validation -/

/-- Stream name carried by a decoded response, reading a missing ack as an
empty stream name (spec-side helper for stating C1). -/
def ackStreamOf (r : PubAckResponse) : String :=
  match r.pubAck with
  | none => ""
  | some a => a.stream

/-- Sequence carried by a decoded response, reading a missing ack as zero
(spec-side helper for stating C1). -/
def ackSeqOf (r : PubAckResponse) : Nat :=
  match r.pubAck with
  | none => 0
  | some a => a.sequence

/-- The spec's invalid-acknowledgment condition: decode failure, a
server-reported error payload, or a response lacking both a stream name and
a nonzero sequence. -/
def specLacksAck (d : Option PubAckResponse) : Prop :=
  d = none ∨ ∃ r, d = some r ∧ (r.error ≠ none ∨ (ackStreamOf r = "" ∧ ackSeqOf r = 0))

/-- Claim C1 as stated: the publish fails exactly under the spec's
invalid-acknowledgment condition, and otherwise returns the decoded ack. -/
def c1AsStated : Prop :=
  ∀ d, (specLacksAck d → ∃ e, PublishMsg (.ok d) = .error e) ∧
    (¬ specLacksAck d →
      ∃ r a, d = some r ∧ r.pubAck = some a ∧ PublishMsg (.ok d) = .ok a)

/-- C1 counterexample: a response decoding to an ack with an empty stream
name but nonzero sequence (`seq = 6`) does not satisfy the spec's failure
condition, yet the code rejects it with the invalid-ack error — the code
checks only the stream name, never the sequence. -/
theorem c1_counterexample : ¬ c1AsStated := by
  intro h
  have hnl : ¬ specLacksAck (some ⟨none, some ⟨"", 6, false⟩⟩) := by
    simp [specLacksAck, ackStreamOf, ackSeqOf]
  obtain ⟨r, a, hd, hpa, hok⟩ := (h (some ⟨none, some ⟨"", 6, false⟩⟩)).2 hnl
  rw [show PublishMsg (.ok (some ⟨none, some ⟨"", 6, false⟩⟩))
      = .error .invalidJSAck from rfl] at hok
  cases hok

/-- C1 (amended): the publish fails with the invalid-ack error exactly when
the body fails to decode or the decoded response has no error payload but
lacks an ack with a non-empty stream name — the sequence is not consulted; a
server error payload fails with its description; otherwise the decoded
PubAck (stream, sequence, duplicate flag) is returned; a transport
no-responders error maps to the no-stream-response error. -/
theorem c1_publish_ack_validation (d : Option PubAckResponse) :
    (PublishMsg (.ok d) = .error .invalidJSAck ↔
      (d = none ∨ ∃ r, d = some r ∧ r.error = none ∧
        (r.pubAck = none ∨ ∃ a, r.pubAck = some a ∧ a.stream = ""))) ∧
    (∀ r ae, d = some r → r.error = some ae →
      PublishMsg (.ok d) = .error (.apiError ae.description)) ∧
    (∀ r a, d = some r → r.error = none → r.pubAck = some a → a.stream ≠ "" →
      PublishMsg (.ok d) = .ok a) ∧
    PublishMsg (.error .noResponders) = .error .noStreamResponse := by
  refine ⟨?_, ?_, ?_, rfl⟩
  · rcases d with _ | r
    · simp [PublishMsg, processPubAck]
    · rcases hre : r.error with _ | ae
      · rcases hpa : r.pubAck with _ | a
        · simp [PublishMsg, processPubAck, hre, hpa]
        · by_cases hs : a.stream = "" <;>
            simp [PublishMsg, processPubAck, hre, hpa, hs]
      · simp [PublishMsg, processPubAck, hre]
  · rintro r ae rfl hre
    simp [PublishMsg, processPubAck, hre]
  · rintro r a rfl hre hpa hs
    simp [PublishMsg, processPubAck, hre, hpa, hs]

/-- Witness for C1 at the spec's scenario responses. -/
theorem c1_publish_ack_validation_witness :
    PublishMsg (.ok (some ⟨none, some ⟨"ORD", 6, false⟩⟩)) = .ok ⟨"ORD", 6, false⟩ ∧
    PublishMsg (.ok (some ⟨some ⟨400, "wrong last sequence"⟩, none⟩)) =
      .error (.apiError "wrong last sequence") :=
  ⟨(c1_publish_ack_validation _).2.2.1 _ _ rfl rfl rfl (by decide),
   (c1_publish_ack_validation _).2.1 _ _ rfl rfl⟩

/-! ## C7: pre-request configuration errors -/

/-- Claim C7 as stated: direct mode with create-implying options always
fails with the direct-mode-required error, and pull mode with a callback
always fails with the pull-mode error, each before any remote request. -/
def c7AsStated : Prop :=
  (∀ (js : JsCtx) (subj queue : String) (hasCb : Bool) (o : SubOpts) (env : SubEnv),
    js.direct = true → shouldCreate o = true →
    subscribe js subj queue hasCb o env = (.err .directModeRequired, [])) ∧
  (∀ (js : JsCtx) (subj queue : String) (hasCb : Bool) (o : SubOpts) (env : SubEnv),
    hasCb = true → 0 < o.pull →
    subscribe js subj queue hasCb o env = (.err .pullModeNotAllowed, []))

/-- C7 counterexample: a direct-mode call with create-implying options that
also combines pull mode with a callback fails with the pull-mode error, not
the direct-mode error, because the pull/callback check runs first. -/
theorem c7_counterexample : ¬ c7AsStated := by
  intro h
  have hd := h.1 ⟨"$JS.API.", true, 5⟩ "orders" "" true ⟨"", "", 10, false, emptyCfg⟩
    decodeFailEnv rfl (by decide)
  rw [show subscribe ⟨"$JS.API.", true, 5⟩ "orders" "" true ⟨"", "", 10, false, emptyCfg⟩
      decodeFailEnv = (.err .pullModeNotAllowed, []) from rfl] at hd
  simp at hd

/-- C7 (amended): pull mode with a callback fails with the pull-mode error
before any remote request; direct mode with create-implying options fails
with the direct-mode-required error before any remote request, unless the
call also combines pull mode with a callback, in which case the pull-mode
check takes precedence. -/
theorem c7_precheck_errors (js : JsCtx) (subj queue : String) (hasCb : Bool)
    (o : SubOpts) (env : SubEnv) :
    (hasCb = true → 0 < o.pull →
      subscribe js subj queue hasCb o env = (.err .pullModeNotAllowed, [])) ∧
    (js.direct = true → shouldCreate o = true → ¬(hasCb = true ∧ 0 < o.pull) →
      subscribe js subj queue hasCb o env = (.err .directModeRequired, [])) := by
  constructor
  · intro h1 h2
    unfold subscribe
    rw [if_pos ⟨h1, h2⟩]
  · intro h1 h2 h3
    unfold subscribe
    rw [if_neg h3, if_pos ⟨h1, h2⟩]

/-- Witness for C7 at concrete option records. -/
theorem c7_precheck_errors_witness :
    subscribe ⟨"$JS.API.", false, 5⟩ "orders" "" true ⟨"", "", 10, false, emptyCfg⟩
      decodeFailEnv = (.err .pullModeNotAllowed, []) ∧
    subscribe ⟨"$JS.API.", true, 5⟩ "orders" "" false ⟨"", "", 0, false, emptyCfg⟩
      decodeFailEnv = (.err .directModeRequired, []) :=
  ⟨(c7_precheck_errors ⟨"$JS.API.", false, 5⟩ "orders" "" true
      ⟨"", "", 10, false, emptyCfg⟩ decodeFailEnv).1 rfl (by decide),
   (c7_precheck_errors ⟨"$JS.API.", true, 5⟩ "orders" "" false
      ⟨"", "", 0, false, emptyCfg⟩ decodeFailEnv).2 rfl (by decide) (by decide)⟩

/-! ## Value lemmas for the resolution and finishing phases -/

theorem shouldAttach_false_of_create (o : SubOpts) (hc : shouldCreate o = true) :
    shouldAttach o = false := by
  cases h : shouldAttach o
  · rfl
  · rw [shouldCreate, h] at hc; cases hc

theorem resolvePath_create_ok (js : JsCtx) (subj : String) (o : SubOpts)
    (env : SubEnv) (s : String) (hd : js.direct = false) (hc : shouldCreate o = true)
    (hsn : env.streamNamesResp = .ok (some ⟨none, [s]⟩)) :
    resolvePath js subj o env =
      (.ok ⟨env.inbox, s,
        { (if ¬ 0 < o.pull then { o.cfg with deliverSubject := env.inbox } else o.cfg) with
          filterSubject := subj }, ""⟩,
       [.request (apiSubj js.pre streamNamesSubj) (.streamNamesReq subj) js.wait]) := by
  have ha := shouldAttach_false_of_create o hc
  unfold resolvePath lookupStreamBySubject
  simp [hd, ha, hsn]

theorem resolvePath_attach_ok (js : JsCtx) (subj : String) (o : SubOpts)
    (env : SubEnv) (i : ConsumerInfoRec) (hd : js.direct = false)
    (ha : shouldAttach o = true)
    (hresp : env.consumerInfoResp = .ok (some ⟨none, some i⟩))
    (hfil : ¬(i.config.filterSubject ≠ "" ∧ subj ≠ i.config.filterSubject)) :
    resolvePath js subj o env =
      (.ok ⟨if i.config.deliverSubject ≠ "" then i.config.deliverSubject else env.inbox,
        "", o.cfg, i.config.deliverSubject⟩,
       [.request (apiSubj js.pre (consumerInfoSubj o.stream o.consumer)) .empty js.wait]) := by
  unfold resolvePath getConsumerInfo
  simp [hd, ha, hresp, hfil]

theorem resolvePath_attach_mismatch (js : JsCtx) (subj : String) (o : SubOpts)
    (env : SubEnv) (i : ConsumerInfoRec) (hd : js.direct = false)
    (ha : shouldAttach o = true)
    (hresp : env.consumerInfoResp = .ok (some ⟨none, some i⟩))
    (hfil : i.config.filterSubject ≠ "" ∧ subj ≠ i.config.filterSubject) :
    resolvePath js subj o env =
      (.err .subjectMismatch,
       [.request (apiSubj js.pre (consumerInfoSubj o.stream o.consumer)) .empty js.wait]) := by
  unfold resolvePath getConsumerInfo
  simp [hd, ha, hresp, hfil]

theorem finishSub_fst (o : SubOpts) (deliver queue : String) (jsi : JsSubInfo)
    (effs : List Eff) :
    (finishSub o deliver queue jsi effs).1 =
      .ok ⟨deliver, queue,
        some (if 0 < o.pull then { jsi with pull := o.pull } else jsi)⟩ := by
  unfold finishSub
  by_cases hp : 0 < o.pull
  · rw [if_pos hp, if_pos hp]
    rcases hpoll : Poll ⟨deliver, queue, some { jsi with pull := o.pull }⟩ with e | op <;>
      simp [hpoll]
  · rw [if_neg hp, if_neg hp]

/-- C4: On the create path, every failure occurring after the local
transport subscription was established but before the remote consumer create
is confirmed (request error, response decode error, or server-reported
error) unwinds the local subscription: the call returns an error and its
effect trace is exactly stream lookup, one local subscribe, the create
request, then one unsubscribe as the final effect. -/
theorem c4_create_failure_unwinds (js : JsCtx) (subj queue : String)
    (hasCb : Bool) (o : SubOpts) (env : SubEnv) (s : String)
    (hcb : ¬(hasCb = true ∧ 0 < o.pull)) (hsc : shouldCreate o = true)
    (hdir : js.direct = false)
    (hsn : env.streamNamesResp = .ok (some ⟨none, [s]⟩))
    (hl : env.localSubOk = true)
    (hbad : (∃ te, env.createResp = .error te) ∨ env.createResp = .ok none ∨
      ∃ resp ae, env.createResp = .ok (some resp) ∧ resp.error = some ae) :
    ∃ e s2 p2,
      subscribe js subj queue hasCb o env =
        (.err e,
         [.request (apiSubj js.pre streamNamesSubj) (.streamNamesReq subj) js.wait,
          .localSubscribe env.inbox queue,
          .request s2 p2 js.wait,
          .unsubscribe]) := by
  unfold subscribe
  rw [if_neg hcb, if_neg (by simp [hdir]),
    resolvePath_create_ok js subj o env s hdir hsc hsn]
  simp only [hl, not_true_eq_false, if_false, hsc, if_true]
  rcases hbad with ⟨te, hcr⟩ | hcr | ⟨resp, ae, hcr, hre⟩
  · rcases te with _ | n <;> rw [hcr] <;> exact ⟨_, _, _, rfl⟩
  · rw [hcr]; exact ⟨_, _, _, rfl⟩
  · rw [hcr]
    simp only [hre]
    exact ⟨_, _, _, rfl⟩

/-- Environment for the C4 witness: stream lookup succeeds, the consumer
create returns a server error payload. -/
def c4Env : SubEnv :=
  ⟨.ok none, .ok (some ⟨none, ["ST"]⟩),
   .ok (some ⟨some ⟨500, "consumer failure"⟩, none⟩), true, "INBOX.g", 65536⟩

/-- Witness for C4 at a concrete create-path call whose create request is
rejected by the server. -/
theorem c4_create_failure_unwinds_witness :
    ∃ e s2 p2,
      subscribe ⟨"$JS.API.", false, 5⟩ "orders" "q" false ⟨"", "", 0, false, emptyCfg⟩ c4Env =
        (.err e,
         [.request (apiSubj "$JS.API." streamNamesSubj) (.streamNamesReq "orders") 5,
          .localSubscribe "INBOX.g" "q",
          .request s2 p2 5,
          .unsubscribe]) :=
  c4_create_failure_unwinds ⟨"$JS.API.", false, 5⟩ "orders" "q" false
    ⟨"", "", 0, false, emptyCfg⟩ c4Env "ST" (by decide) (by decide) rfl rfl rfl
    (Or.inr (Or.inr ⟨_, _, rfl, rfl⟩))

/-- C8: On the attach path the existing consumer's info is fetched by stream
and consumer name (the only request issued); a fetched configuration whose
filter subject is non-empty and differs from the requested subject fails
with the subject-mismatch error before any local subscribe or create
request; otherwise the consumer's configured deliver subject — or a fresh
inbox when it is empty — becomes the local delivery subject. -/
theorem c8_attach_path (js : JsCtx) (subj queue : String) (hasCb : Bool)
    (o : SubOpts) (env : SubEnv) (i : ConsumerInfoRec)
    (hcb : ¬(hasCb = true ∧ 0 < o.pull)) (ha : shouldAttach o = true)
    (hdir : js.direct = false)
    (hresp : env.consumerInfoResp = .ok (some ⟨none, some i⟩)) :
    (i.config.filterSubject ≠ "" → subj ≠ i.config.filterSubject →
      subscribe js subj queue hasCb o env =
        (.err .subjectMismatch,
         [.request (apiSubj js.pre (consumerInfoSubj o.stream o.consumer)) .empty js.wait])) ∧
    (¬(i.config.filterSubject ≠ "" ∧ subj ≠ i.config.filterSubject) →
      env.localSubOk = true →
      (subscribe js subj queue hasCb o env).2.take 2 =
        [.request (apiSubj js.pre (consumerInfoSubj o.stream o.consumer)) .empty js.wait,
         .localSubscribe
           (if i.config.deliverSubject ≠ "" then i.config.deliverSubject else env.inbox)
           queue] ∧
      ∃ sub, (subscribe js subj queue hasCb o env).1 = .ok sub ∧
        sub.subject =
          (if i.config.deliverSubject ≠ "" then i.config.deliverSubject else env.inbox)) := by
  have hnc : shouldCreate o = false := by rw [shouldCreate, ha]; rfl
  constructor
  · intro h1 h2
    unfold subscribe
    rw [if_neg hcb, if_neg (by simp [hdir]),
      resolvePath_attach_mismatch js subj o env i hdir ha hresp ⟨h1, h2⟩]
  · intro hfil hl
    unfold subscribe
    rw [if_neg hcb, if_neg (by simp [hdir]),
      resolvePath_attach_ok js subj o env i hdir ha hresp hfil]
    simp only [hl, not_true_eq_false, if_false, hnc, Bool.false_eq_true]
    constructor
    · obtain ⟨rest, hrest⟩ := finishSub_effs_extend o
        (if i.config.deliverSubject ≠ "" then i.config.deliverSubject else env.inbox) queue
        ⟨js, o.stream, o.consumer,
          if js.direct = true then o.cfg.deliverSubject else i.config.deliverSubject, 0⟩
        ([.request (apiSubj js.pre (consumerInfoSubj o.stream o.consumer)) .empty js.wait] ++
         [.localSubscribe
           (if i.config.deliverSubject ≠ "" then i.config.deliverSubject else env.inbox) queue])
      rw [hrest]
      rfl
    · rw [finishSub_fst]
      exact ⟨_, rfl, rfl⟩

/-- Environment for the C8 witness mismatch case: the fetched consumer
filters on a different subject. -/
def c8MismatchEnv : SubEnv :=
  ⟨.ok (some ⟨none, some ⟨"S", "C", ⟨"", "d.subj", "flt", AckExplicit, 0⟩⟩⟩),
   .ok none, .ok none, true, "INBOX.g", 65536⟩

/-- Environment for the C8 witness attach-success case: the fetched consumer
has no filter and an empty deliver subject. -/
def c8OkEnv : SubEnv :=
  ⟨.ok (some ⟨none, some ⟨"S", "C", ⟨"", "", "", AckExplicit, 0⟩⟩⟩),
   .ok none, .ok none, true, "INBOX.g", 65536⟩

/-- Witness for C8: a concrete filter mismatch fails with subject-mismatch
after only the info request, and a concrete filterless attach proceeds with
a generated inbox. -/
theorem c8_attach_path_witness :
    subscribe ⟨"$JS.API.", false, 5⟩ "orders" "" false ⟨"S", "C", 0, false, emptyCfg⟩
        c8MismatchEnv =
      (.err .subjectMismatch,
       [.request (apiSubj "$JS.API." (consumerInfoSubj "S" "C")) .empty 5]) ∧
    ∃ sub,
      (subscribe ⟨"$JS.API.", false, 5⟩ "orders" "" false ⟨"S", "C", 0, false, emptyCfg⟩
        c8OkEnv).1 = .ok sub ∧
      sub.subject = (if ("" : String) ≠ "" then "" else "INBOX.g") :=
  ⟨(c8_attach_path ⟨"$JS.API.", false, 5⟩ "orders" "" false ⟨"S", "C", 0, false, emptyCfg⟩
      c8MismatchEnv ⟨"S", "C", ⟨"", "d.subj", "flt", AckExplicit, 0⟩⟩
      (by decide) (by decide) rfl rfl).1 (by decide) (by decide),
   ((c8_attach_path ⟨"$JS.API.", false, 5⟩ "orders" "" false ⟨"S", "C", 0, false, emptyCfg⟩
      c8OkEnv ⟨"S", "C", ⟨"", "", "", AckExplicit, 0⟩⟩
      (by decide) (by decide) rfl rfl).2 (by decide) rfl).2⟩

/-! ## C5: pull/push binding invariant and Poll -/

/-- Claim C5 as stated: every successful subscribe yields a binding whose
deliver subject is empty iff it is pull mode, and Poll succeeds exactly on
pull bindings (empty deliver subject, nonzero batch), failing with the
binding-type error otherwise. -/
def c5AsStated : Prop :=
  (∀ (js : JsCtx) (subj queue : String) (hasCb : Bool) (o : SubOpts) (env : SubEnv)
    (sub : Subscription) (effs : List Eff),
    subscribe js subj queue hasCb o env = (.ok sub, effs) →
    ∃ jsi, sub.jsi = some jsi ∧ (0 < jsi.pull → jsi.deliver = "") ∧
      (¬ 0 < jsi.pull → jsi.deliver ≠ "")) ∧
  (∀ sub : Subscription,
    ((∃ op, Poll sub = .ok op) →
      ∃ jsi, sub.jsi = some jsi ∧ jsi.deliver = "" ∧ jsi.pull ≠ 0) ∧
    ((¬ ∃ jsi, sub.jsi = some jsi ∧ jsi.deliver = "" ∧ jsi.pull ≠ 0) →
      Poll sub = .error .typeSubscription))

/-- Environment for the C5 counterexample: attaching with a pull batch to a
consumer whose fetched configuration carries a push deliver subject. -/
def attachPullEnv : SubEnv :=
  ⟨.ok (some ⟨none, some ⟨"S", "C", ⟨"", "push.subj", "", AckExplicit, 0⟩⟩⟩),
   .ok none, .ok none, true, "INBOX.g", 65536⟩

/-- C5 counterexample: attaching with `Pull 10` to a consumer whose fetched
config has deliver subject `push.subj` succeeds and stores a binding with
`pull = 10` and a non-empty deliver subject, violating the stated
pull-implies-empty-deliver invariant (the initial `Poll`'s failure is
silently discarded by `subscribe`). -/
theorem c5_counterexample : ¬ c5AsStated := by
  intro h
  obtain ⟨jsi, hj, hinv, _⟩ := h.1 ⟨"$JS.API.", false, 5⟩ "orders" "" false
    ⟨"S", "C", 10, false, emptyCfg⟩ attachPullEnv
    ⟨"push.subj", "", some ⟨⟨"$JS.API.", false, 5⟩, "S", "C", "push.subj", 10⟩⟩ _ rfl
  simp only [Option.some.injEq] at hj
  rw [← hj] at hinv
  exact absurd (hinv (by decide)) (by decide)

/-- C5 (amended): `Poll` succeeds in issuing the next-message request
exactly on bindings with an empty deliver subject and nonzero batch size and
fails with the binding-type error on every other subscription; the stored
deliver subject always comes from the consumer configuration the binding was
resolved against, so the pull/push invariant holds on the create path
whenever the server's create response echoes the requested deliver subject
(empty for pull mode, the generated inbox for push mode). -/
theorem c5_binding_invariant :
    (∀ sub : Subscription,
      (∀ jsi, sub.jsi = some jsi → jsi.deliver = "" → jsi.pull ≠ 0 →
        Poll sub = .ok (.publishRequest
          (apiSubj jsi.js.pre (requestNextSubj jsi.stream jsi.consumer))
          sub.subject (.nextReq jsi.pull))) ∧
      ((¬ ∃ jsi, sub.jsi = some jsi ∧ jsi.deliver = "" ∧ jsi.pull ≠ 0) →
        Poll sub = .error .typeSubscription)) ∧
    (∀ (js : JsCtx) (subj queue : String) (hasCb : Bool) (o : SubOpts)
      (env : SubEnv) (s : String) (i : ConsumerInfoRec),
      ¬(hasCb = true ∧ 0 < o.pull) → shouldCreate o = true → js.direct = false →
      env.streamNamesResp = .ok (some ⟨none, [s]⟩) → env.localSubOk = true →
      env.createResp = .ok (some ⟨none, some i⟩) →
      i.config.deliverSubject = (if 0 < o.pull then "" else env.inbox) →
      env.inbox ≠ "" →
      ∃ sub jsi, (subscribe js subj queue hasCb o env).1 = .ok sub ∧
        sub.jsi = some jsi ∧ (0 < jsi.pull ↔ jsi.deliver = "")) := by
  constructor
  · intro sub
    constructor
    · intro jsi hj hdel hp
      simp [Poll, hj, hdel, hp]
    · intro hno
      rcases hjs : sub.jsi with _ | jsi
      · simp [Poll, hjs]
      · have : ¬(jsi.deliver = "" ∧ jsi.pull ≠ 0) := fun hc => hno ⟨jsi, hjs, hc.1, hc.2⟩
        unfold Poll
        rw [hjs]
        simp only []
        rw [if_pos (by tauto)]
  · intro js subj queue hasCb o env s i hcb hsc hdir hsn hl hcr hecho hinbox
    unfold subscribe
    rw [if_neg hcb, if_neg (by simp [hdir]),
      resolvePath_create_ok js subj o env s hdir hsc hsn]
    simp only [hl, not_true_eq_false, if_false, hsc, if_true, hcr]
    rw [finishSub_fst]
    refine ⟨_, _, rfl, rfl, ?_⟩
    by_cases hp : 0 < o.pull
    · rw [if_pos hp, hecho, if_pos hp]
      simpa using hp
    · rw [if_neg hp, hecho, if_neg hp]
      simp only []
      constructor
      · intro hc; exact absurd hc (lt_irrefl 0)
      · intro hc; exact absurd hc hinbox

/-- Witness for C5: Poll issues the next request on a concrete pull binding
and rejects a concrete push binding; a concrete create-path pull subscribe
with an echoing server yields an empty stored deliver subject. -/
theorem c5_binding_invariant_witness :
    Poll ⟨"INBOX.p", "", some ⟨⟨"$JS.API.", false, 5⟩, "S", "C", "", 10⟩⟩ =
      .ok (.publishRequest (apiSubj "$JS.API." (requestNextSubj "S" "C"))
        "INBOX.p" (.nextReq 10)) ∧
    Poll ⟨"d.subj", "", some ⟨⟨"$JS.API.", false, 5⟩, "S", "C", "d.subj", 0⟩⟩ =
      .error .typeSubscription ∧
    ∃ sub jsi,
      (subscribe ⟨"$JS.API.", false, 5⟩ "orders" "" false ⟨"", "", 10, false, emptyCfg⟩
        ⟨.ok none, .ok (some ⟨none, ["ST"]⟩),
         .ok (some ⟨none, some ⟨"ST", "eph1", ⟨"", "", "orders", AckExplicit, 65536⟩⟩⟩),
         true, "INBOX.g", 65536⟩).1 = .ok sub ∧
      sub.jsi = some jsi ∧ (0 < jsi.pull ↔ jsi.deliver = "") :=
  ⟨(c5_binding_invariant.1 ⟨"INBOX.p", "", some ⟨⟨"$JS.API.", false, 5⟩, "S", "C", "", 10⟩⟩).1
      _ rfl rfl (by decide),
   (c5_binding_invariant.1 ⟨"d.subj", "", some ⟨⟨"$JS.API.", false, 5⟩, "S", "C", "d.subj", 0⟩⟩).2
      (by rintro ⟨jsi, hj, hd, hp⟩; simp at hj; rw [← hj] at hd hp; revert hd hp; decide),
   c5_binding_invariant.2 ⟨"$JS.API.", false, 5⟩ "orders" "" false
      ⟨"", "", 10, false, emptyCfg⟩ _ "ST" ⟨"ST", "eph1", ⟨"", "", "orders", AckExplicit, 65536⟩⟩
      (by decide) (by decide) rfl rfl rfl rfl (by decide) (by decide)⟩

end NatsJS
